import Mathlib

/-!
Verification of the samakitrack caching / rate-limiting core.

Shallow embedding of:
  - `src/api/rate-limit.js` (class `RateLimiter`),
  - `src/unnamed/part_001` (consolidated `api/sheets.js` handler: TTL cache
    helpers `getCache` / `setCache`, `checkRateLimit`, error classification
    in the catch block, and the request routing itself),
  - `src/sw.js` (service-worker fetch strategies `handleAPIRequest`,
    `handleStaticRequest`, `handleDocumentRequest`, `handleDynamicRequest`).

JavaScript `Map` objects are embedded as association lists in insertion
order: `Map.set` on an existing key replaces the value in place (the key
keeps its position in iteration order), `Map.set` on a new key appends,
`Map.delete` removes the key, and `Map.keys().next().value` is the head.
JS timestamps (`Date.now()`) are embedded as `Int`.
-/

/-- `Map.get`: the value stored under `key`, scanning in insertion order. -/
def jget {β : Type} : List (String × β) → String → Option β
  | [], _ => none
  | (k, v) :: rest, key => if k = key then some v else jget rest key

/-- `Map.set`: replace in place if the key is present (JS `Map` keeps the
key's position in iteration order), otherwise append at the end. -/
def jset {β : Type} : List (String × β) → String → β → List (String × β)
  | [], key, val => [(key, val)]
  | (k, v) :: rest, key, val =>
      if k = key then (k, val) :: rest else (k, v) :: jset rest key val

/-- `Map.delete`: drop the entry stored under `key`. -/
def jdelete {β : Type} : List (String × β) → String → List (String × β)
  | [], _ => []
  | (k, v) :: rest, key =>
      if k = key then jdelete rest key else (k, v) :: jdelete rest key

theorem jget_jset_self {β : Type} (m : List (String × β)) (k : String) (v : β) :
    jget (jset m k v) k = some v := by
  induction m with
  | nil => simp [jget, jset]
  | cons e rest ih =>
      by_cases h : e.1 = k
      · simp [jget, jset, h]
      · simp [jget, jset, h, ih]

theorem jget_jset_other {β : Type} (m : List (String × β)) (k k' : String)
    (v : β) (h : ¬ k' = k) : jget (jset m k v) k' = jget m k' := by
  have h' : ¬ k = k' := fun hh => h hh.symm
  induction m with
  | nil => simp [jget, jset, h']
  | cons e rest ih =>
      by_cases he : e.1 = k
      · subst he
        simp [jget, jset, h']
      · simp only [jset, if_neg he]
        by_cases he' : e.1 = k'
        · simp [jget, he']
        · simp [jget, he', ih]

theorem jget_jdelete_self {β : Type} (m : List (String × β)) (k : String) :
    jget (jdelete m k) k = none := by
  induction m with
  | nil => simp [jget, jdelete]
  | cons e rest ih =>
      obtain ⟨a, b⟩ := e
      by_cases h : a = k
      · simp only [jdelete, if_pos h]
        exact ih
      · simp only [jdelete, if_neg h, jget, if_neg h]
        exact ih

theorem jget_jdelete_other {β : Type} (m : List (String × β)) (k k' : String)
    (h : ¬ k' = k) : jget (jdelete m k) k' = jget m k' := by
  induction m with
  | nil => simp [jget, jdelete]
  | cons e rest ih =>
      obtain ⟨a, b⟩ := e
      by_cases he : a = k
      · have ha : ¬ a = k' := fun hh => h (hh.symm.trans he)
        simp only [jdelete, if_pos he, jget, if_neg ha]
        exact ih
      · simp only [jdelete, if_neg he, jget]
        by_cases ha : a = k'
        · simp [ha]
        · simp only [if_neg ha]
          exact ih

theorem jset_append_of_jget_none {β : Type} (m : List (String × β))
    (k : String) (v : β) (h : jget m k = none) :
    jset m k v = m ++ [(k, v)] := by
  induction m with
  | nil => simp [jset]
  | cons e rest ih =>
      by_cases he : e.1 = k
      · simp [jget, he] at h
      · simp only [jget, if_neg he] at h
        simp [jset, he, ih h]

theorem length_jset_le {β : Type} (m : List (String × β)) (k : String)
    (v : β) : (jset m k v).length ≤ m.length + 1 := by
  induction m with
  | nil => simp [jset]
  | cons e rest ih =>
      by_cases he : e.1 = k
      · simp [jset, he]
      · simp only [jset, if_neg he, List.length_cons]
        omega

theorem length_jdelete_le {β : Type} (m : List (String × β)) (k : String) :
    (jdelete m k).length ≤ m.length := by
  induction m with
  | nil => simp [jdelete]
  | cons e rest ih =>
      by_cases he : e.1 = k
      · simp only [jdelete, if_pos he, List.length_cons]
        omega
      · simp only [jdelete, if_neg he, List.length_cons]
        omega

theorem length_jdelete_cons_self {β : Type} (k : String) (v : β)
    (rest : List (String × β)) :
    (jdelete ((k, v) :: rest) k).length ≤ rest.length := by
  simp only [jdelete, if_pos rfl]
  exact length_jdelete_le rest k

/-! ## Rate limiter (`src/api/rate-limit.js`, class `RateLimiter`) -/

/-- The record returned by `RateLimiter.check`. -/
structure RLResult where
  allowed : Bool
  remaining : Int
  resetAt : Int
deriving DecidableEq, Repr

/-- `Math.min(...requests)` over a list of timestamps.  The source only
evaluates it on a non-empty list (the reject branch has at least
`maxRequests ≥ 1` surviving timestamps); on `[]` JS would give `Infinity`,
here the value is a junk `0`. -/
def listMin : List Int → Int
  | [] => 0
  | [t] => t
  | t :: ts => min t (listMin ts)

namespace RateLimiter

/-- `RateLimiter.check(identifier)` acting on one identifier's window.
`window` is the stored timestamp array, `now` is `Date.now()`; the result
pairs the returned record with the window stored back into the map
(the source first stores the pruned array, then pushes `now` on admit). -/
def check (maxRequests : Nat) (windowMs : Int) (window : List Int)
    (now : Int) : RLResult × List Int :=
  let windowStart := now - windowMs
  let timestamps := window.filter (fun t => decide (windowStart < t))
  if maxRequests ≤ timestamps.length then
    ({ allowed := false, remaining := 0,
       resetAt := listMin timestamps + windowMs }, timestamps)
  else
    let timestamps' := timestamps ++ [now]
    ({ allowed := true,
       remaining := (maxRequests : Int) - (timestamps'.length : Int),
       resetAt := now + windowMs }, timestamps')

end RateLimiter

/-- Run a sequence of `RateLimiter.check` calls for one identifier, one at
each time in `times`, threading the stored window; returns the list of
results and the final stored window. -/
def runChecks (maxRequests : Nat) (windowMs : Int) :
    List Int → List Int → List RLResult × List Int
  | [], w => ([], w)
  | t :: ts, w =>
      let step := RateLimiter.check maxRequests windowMs w t
      let rest := runChecks maxRequests windowMs ts step.2
      (step.1 :: rest.1, rest.2)

/-- The results an uninterrupted run of admitted calls produces: the call at
time `t` with `n` timestamps already stored is admitted with
`remaining = maxRequests - (n + 1)` and `resetAt = t + windowMs`. -/
def admittedResults (maxRequests : Nat) (windowMs : Int) :
    Nat → List Int → List RLResult
  | _, [] => []
  | n, t :: ts =>
      { allowed := true, remaining := (maxRequests : Int) - ((n : Int) + 1),
        resetAt := t + windowMs }
        :: admittedResults maxRequests windowMs (n + 1) ts

theorem filter_window_eq_self {windowMs now : Int} {w : List Int}
    (h : ∀ u ∈ w, now - windowMs < u) :
    w.filter (fun t => decide (now - windowMs < t)) = w := by
  apply List.filter_eq_self.mpr
  intro u hu
  exact decide_eq_true (h u hu)

theorem runChecks_admitted (maxRequests : Nat) (windowMs T : Int) :
    ∀ (ts w : List Int),
      (∀ u ∈ w, T - windowMs < u) →
      (∀ u ∈ ts, T - windowMs < u ∧ u ≤ T) →
      w.length + ts.length ≤ maxRequests →
      runChecks maxRequests windowMs ts w =
        (admittedResults maxRequests windowMs w.length ts, w ++ ts) := by
  intro ts
  induction ts with
  | nil =>
      intro w _ _ _
      simp [runChecks, admittedResults]
  | cons t rest ih =>
      intro w hw hts hlen
      have htmem := hts t (List.mem_cons_self t rest)
      have hfil : w.filter (fun u => decide (t - windowMs < u)) = w := by
        apply filter_window_eq_self
        intro u hu
        have h1 : T - windowMs < u := hw u hu
        have h2 : t ≤ T := htmem.2
        omega
      have hlt : w.length < maxRequests := by
        simp only [List.length_cons] at hlen
        omega
      have hcheck : RateLimiter.check maxRequests windowMs w t =
          ({ allowed := true,
             remaining := (maxRequests : Int) - ((w.length : Int) + 1),
             resetAt := t + windowMs }, w ++ [t]) := by
        simp only [RateLimiter.check, hfil]
        rw [if_neg (by omega)]
        simp
      have hw' : ∀ u ∈ w ++ [t], T - windowMs < u := by
        intro u hu
        rcases List.mem_append.mp hu with h | h
        · exact hw u h
        · simp at h; subst h; exact htmem.1
      have hts' : ∀ u ∈ rest, T - windowMs < u ∧ u ≤ T := by
        intro u hu; exact hts u (List.mem_cons_of_mem _ hu)
      have hlen' : (w ++ [t]).length + rest.length ≤ maxRequests := by
        simp only [List.length_append, List.length_cons, List.length_nil,
          List.length_singleton] at hlen ⊢
        omega
      have hrec := ih (w ++ [t]) hw' hts' hlen'
      simp only [runChecks, hcheck, hrec, admittedResults,
        List.length_append, List.length_cons, List.length_nil,
        List.length_singleton, List.append_assoc, List.singleton_append]

theorem admittedResults_all_allowed (maxRequests : Nat) (windowMs : Int) :
    ∀ (ts : List Int) (n : Nat),
      ∀ r ∈ admittedResults maxRequests windowMs n ts, r.allowed = true := by
  intro ts
  induction ts with
  | nil => intro n r hr; simp [admittedResults] at hr
  | cons t rest ih =>
      intro n r hr
      simp only [admittedResults, List.mem_cons] at hr
      rcases hr with h | h
      · subst h; rfl
      · exact ih (n + 1) r h

theorem admittedResults_last_remaining (maxRequests : Nat) (windowMs : Int) :
    ∀ (ts : List Int) (n : Nat) (t : Int),
      (admittedResults maxRequests windowMs n (t :: ts)).getLast?.map
          RLResult.remaining
        = some ((maxRequests : Int) - ((n : Int) + ((ts.length : Int) + 1))) := by
  intro ts
  induction ts with
  | nil =>
      intro n t
      simp [admittedResults]
  | cons t' rest ih =>
      intro n t
      have h := ih (n + 1) t'
      have e : admittedResults maxRequests windowMs n (t :: t' :: rest)
          = { allowed := true,
              remaining := (maxRequests : Int) - ((n : Int) + 1),
              resetAt := t + windowMs }
            :: admittedResults maxRequests windowMs (n + 1) (t' :: rest) := rfl
      rw [e]
      have e2 : admittedResults maxRequests windowMs (n + 1) (t' :: rest)
          = { allowed := true,
              remaining := (maxRequests : Int) - (((n + 1 : Nat) : Int) + 1),
              resetAt := t' + windowMs }
            :: admittedResults maxRequests windowMs (n + 1 + 1) rest := rfl
      rw [e2, List.getLast?_cons_cons, ← e2, h]
      congr 1
      simp only [List.length_cons]
      push_cast
      ring

theorem listMin_of_sorted :
    ∀ (ts : List Int) (t : Int), (t :: ts).Chain' (· ≤ ·) →
      listMin (t :: ts) = t := by
  intro ts
  induction ts with
  | nil => intro t _; rfl
  | cons u rest ih =>
      intro t h
      have h1 : t ≤ u := (List.chain'_cons.mp h).1
      have h2 := ih u (List.chain'_cons.mp h).2
      show min t (listMin (u :: rest)) = t
      rw [h2]
      exact min_eq_left h1

/-- C1: for every identifier, after exactly `maxRequests` admitted `check`
calls within `windowMs` (call times `ts`, all within `windowMs` of the probe
time `T`), every one of those calls is admitted, the last admitted call
returns `remaining = 0`, and the next call (at `T`) returns
`allowed = false`, `remaining = 0` and `resetAt` equal to the earliest
surviving timestamp plus `windowMs`. -/
theorem c1_rate_limit_exhaustion (maxRequests : Nat) (windowMs T : Int)
    (ts : List Int)
    (hm : 1 ≤ maxRequests)
    (hlen : ts.length = maxRequests)
    (hsorted : ts.Chain' (· ≤ ·))
    (hin : ∀ u ∈ ts, T - windowMs < u ∧ u ≤ T) :
    (∀ r ∈ (runChecks maxRequests windowMs ts []).1, r.allowed = true)
    ∧ (runChecks maxRequests windowMs ts []).1.getLast?.map RLResult.remaining
        = some 0
    ∧ (RateLimiter.check maxRequests windowMs
          (runChecks maxRequests windowMs ts []).2 T).1
        = { allowed := false, remaining := 0,
            resetAt := ts.headD 0 + windowMs } := by
  have hrun := runChecks_admitted maxRequests windowMs T ts []
    (by intro u hu; simp at hu) hin (by simp [hlen])
  simp only [List.length_nil, List.nil_append] at hrun
  obtain ⟨t0, ts', rfl⟩ : ∃ t0 ts', ts = t0 :: ts' := by
    cases ts with
    | nil => simp at hlen; omega
    | cons a l => exact ⟨a, l, rfl⟩
  refine ⟨?_, ?_, ?_⟩
  · intro r hr
    rw [hrun] at hr
    exact admittedResults_all_allowed maxRequests windowMs _ _ r hr
  · rw [hrun]
    have h := admittedResults_last_remaining maxRequests windowMs ts' 0 t0
    rw [h]
    congr 1
    simp only [List.length_cons] at hlen
    push_cast
    omega
  · rw [hrun]
    have hfil : (([] : List Int) ++ t0 :: ts').filter
        (fun u => decide (T - windowMs < u)) = t0 :: ts' := by
      apply filter_window_eq_self
      intro u hu
      simpa using (hin u (by simpa using hu)).1
    simp only [List.nil_append] at hfil ⊢
    simp only [RateLimiter.check, hfil]
    rw [if_pos (by simp only [List.length_cons] at hlen ⊢; omega)]
    simp only [List.headD_cons]
    rw [listMin_of_sorted ts' t0 hsorted]

/-- Witness for C1: `maxRequests = 3`, `windowMs = 1000`, calls at times
0, 10, 20, probe at `T = 100`. -/
theorem c1_rate_limit_exhaustion_witness :
    (∀ r ∈ (runChecks 3 1000 [0, 10, 20] []).1, r.allowed = true)
    ∧ (runChecks 3 1000 [0, 10, 20] []).1.getLast?.map RLResult.remaining
        = some 0
    ∧ (RateLimiter.check 3 1000 (runChecks 3 1000 [0, 10, 20] []).2 100).1
        = { allowed := false, remaining := 0, resetAt := (0 : Int) + 1000 } :=
  c1_rate_limit_exhaustion 3 1000 100 [0, 10, 20] (by decide) (by decide)
    (by simp [List.chain'_cons]) (by decide)

/-! ## Server-side TTL cache (`src/unnamed/part_001`, `getCache` / `setCache`)

The consolidated `api/sheets.js` keeps a module-level `Map` from cache key
to `{data, timestamp}`.  The module constants `CACHE_TTL` and
`MAX_CACHE_SIZE` are passed to the embedded functions as explicit
parameters; the handler instantiates them at the source values. -/

/-- The JSON payloads the handler caches: a sheet-name list
(`data.sheets.map(s => s.properties.title)`) or a 2D value range
(`result.values || []`). -/
inductive Payload
  | names (titles : List String)
  | vals (rows : List (List String))
deriving DecidableEq, Repr

/-- One cache entry: `{ data, timestamp: Date.now() }`. -/
structure CacheItem where
  data : Payload
  timestamp : Int
deriving DecidableEq, Repr

/-- `CACHE_TTL = 5 * 60 * 1000`. -/
def CACHE_TTL : Int := 5 * 60 * 1000

/-- `MAX_CACHE_SIZE = 100`. -/
def MAX_CACHE_SIZE : Nat := 100

/-- `getCacheKey(sheet, action)`: `action ? action : "sheet:" + sheet`. -/
def getCacheKey (sheet : Option String) (action : Option String) : String :=
  match action with
  | some a => a
  | none =>
      match sheet with
      | some s => "sheet:" ++ s
      | none => "sheet:undefined"

/-- `getCache(key)`: miss on absent; expired entries
(`Date.now() - item.timestamp > CACHE_TTL`) are deleted and reported as
miss; otherwise the stored data is returned.  The pair carries the cache
`Map` after the call (reads can delete expired entries). -/
def getCache (ttl : Int) (cache : List (String × CacheItem)) (key : String)
    (now : Int) : Option Payload × List (String × CacheItem) :=
  match jget cache key with
  | none => (none, cache)
  | some item =>
      if ttl < now - item.timestamp then (none, jdelete cache key)
      else (some item.data, cache)

/-- `setCache(key, data)`: when `cache.size >= MAX_CACHE_SIZE` the first
key in iteration order (`cache.keys().next().value`, the earliest-inserted
surviving key) is deleted — unconditionally, whether or not `key` itself is
already present — then `key` is set to `{data, timestamp: now}`. -/
def setCache (maxSize : Nat) (cache : List (String × CacheItem))
    (key : String) (data : Payload) (now : Int) :
    List (String × CacheItem) :=
  let cache' :=
    if maxSize ≤ cache.length then
      match cache.head? with
      | some first => jdelete cache first.1
      | none => cache
    else cache
  jset cache' key { data := data, timestamp := now }

theorem jget_setCache_self (maxSize : Nat) (cache : List (String × CacheItem))
    (key : String) (data : Payload) (now : Int) :
    jget (setCache maxSize cache key data now) key
      = some { data := data, timestamp := now } := by
  unfold setCache
  exact jget_jset_self _ _ _

/-- C2: a `set` followed by a `get` of the same key before `ttl` has
elapsed returns exactly the stored value; a `get` after `ttl` has elapsed
since the write timestamp is a miss; and in general `getCache` never
returns data staler than `ttl` (a hit always comes from an entry whose age
`now - timestamp` is at most `ttl`). -/
theorem c2_ttl_cache_freshness (ttl : Int) (maxSize : Nat)
    (cache : List (String × CacheItem)) (key : String) (data : Payload)
    (tset tget : Int) :
    (tget - tset < ttl →
      (getCache ttl (setCache maxSize cache key data tset) key tget).1
        = some data)
    ∧ (ttl < tget - tset →
      (getCache ttl (setCache maxSize cache key data tset) key tget).1
        = none)
    ∧ (∀ (c : List (String × CacheItem)) (k : String) (v : Payload) (t : Int),
        (getCache ttl c k t).1 = some v →
        ∃ item, jget c k = some item ∧ item.data = v
          ∧ t - item.timestamp ≤ ttl) := by
  refine ⟨?_, ?_, ?_⟩
  · intro hfresh
    simp only [getCache, jget_setCache_self]
    rw [if_neg (by omega)]
  · intro hstale
    simp only [getCache, jget_setCache_self]
    rw [if_pos (by omega)]
  · intro c k v t hget
    unfold getCache at hget
    cases hj : jget c k with
    | none => rw [hj] at hget; simp at hget
    | some item =>
        rw [hj] at hget
        by_cases hexp : ttl < t - item.timestamp
        · simp [hexp] at hget
        · simp [hexp] at hget
          exact ⟨item, rfl, hget, by omega⟩

/-- Witness for C2: store under key `"sheet:A"` at time 0, read back fresh
at time 1000 and stale at time 300001 (`ttl = 300000`). -/
theorem c2_ttl_cache_freshness_witness :
    (getCache 300000 (setCache 100 [] "sheet:A" (Payload.vals [["1"]]) 0)
        "sheet:A" 1000).1 = some (Payload.vals [["1"]])
    ∧ (getCache 300000 (setCache 100 [] "sheet:A" (Payload.vals [["1"]]) 0)
        "sheet:A" 300001).1 = none :=
  ⟨(c2_ttl_cache_freshness 300000 100 [] "sheet:A" (Payload.vals [["1"]])
      0 1000).1 (by decide),
   (c2_ttl_cache_freshness 300000 100 [] "sheet:A" (Payload.vals [["1"]])
      0 300001).2.1 (by decide)⟩

/-- Counterexample for C3 as stated: with `maxSize = 2` and the cache at
capacity holding `"a"` (earliest-inserted) and `"b"`, a `setCache` on the
already-present key `"b"` nonetheless evicts `"a"`: the size guard in
`setCache` does not test whether the key is new. -/
theorem c3_fifo_eviction_counterexample :
    jget [("a", CacheItem.mk (Payload.names ["x"]) 0),
          ("b", CacheItem.mk (Payload.names ["y"]) 0)] "b"
      = some (CacheItem.mk (Payload.names ["y"]) 0)
    ∧ jget (setCache 2
        [("a", CacheItem.mk (Payload.names ["x"]) 0),
         ("b", CacheItem.mk (Payload.names ["y"]) 0)]
        "b" (Payload.names ["z"]) 5) "a"
      = none := by
  constructor
  · rfl
  · rfl

/-- C3 (amended): whenever the cache is at capacity (`size >= maxSize`),
`setCache` evicts exactly the earliest-inserted surviving entry (the first
key in insertion order) before inserting — whether the key being set is new
or already present — and preserves every other entry; below capacity no
entry is evicted.  In all cases the written key ends up present with the
new data and timestamp. -/
theorem c3_fifo_eviction (maxSize : Nat) (cache : List (String × CacheItem))
    (key : String) (data : Payload) (now : Int) :
    (jget (setCache maxSize cache key data now) key
      = some { data := data, timestamp := now })
    ∧ (cache.length < maxSize → ∀ k, ¬ k = key →
        jget (setCache maxSize cache key data now) k = jget cache k)
    ∧ (maxSize ≤ cache.length →
        ∀ first rest, cache = first :: rest →
        (¬ first.1 = key →
          jget (setCache maxSize cache key data now) first.1 = none)
        ∧ (∀ k, ¬ k = key → ¬ k = first.1 →
            jget (setCache maxSize cache key data now) k = jget cache k)) := by
  refine ⟨jget_setCache_self _ _ _ _ _, ?_, ?_⟩
  · intro hlt k hk
    unfold setCache
    rw [if_neg (by omega)]
    exact jget_jset_other _ _ _ _ hk
  · intro hge first rest hc
    subst hc
    constructor
    · intro hfk
      unfold setCache
      rw [if_pos hge]
      simp only [List.head?_cons]
      rw [jget_jset_other _ _ _ _ hfk]
      exact jget_jdelete_self _ _
    · intro k hk hkf
      unfold setCache
      rw [if_pos hge]
      simp only [List.head?_cons]
      rw [jget_jset_other _ _ _ _ hk]
      exact jget_jdelete_other _ _ _ hkf

/-- Witness for C3 (amended): below capacity (`maxSize = 3`) setting `"c"`
preserves `"a"`; at capacity (`maxSize = 2`) setting the new key `"c"`
evicts exactly `"a"` and preserves `"b"`. -/
theorem c3_fifo_eviction_witness :
    jget (setCache 3
        [("a", CacheItem.mk (Payload.names ["x"]) 0),
         ("b", CacheItem.mk (Payload.names ["y"]) 0)]
        "c" (Payload.names ["z"]) 5) "a"
      = some (CacheItem.mk (Payload.names ["x"]) 0)
    ∧ jget (setCache 2
        [("a", CacheItem.mk (Payload.names ["x"]) 0),
         ("b", CacheItem.mk (Payload.names ["y"]) 0)]
        "c" (Payload.names ["z"]) 5) "a"
      = none
    ∧ jget (setCache 2
        [("a", CacheItem.mk (Payload.names ["x"]) 0),
         ("b", CacheItem.mk (Payload.names ["y"]) 0)]
        "c" (Payload.names ["z"]) 5) "b"
      = some (CacheItem.mk (Payload.names ["y"]) 0) := by
  have h := c3_fifo_eviction 2
    [("a", CacheItem.mk (Payload.names ["x"]) 0),
     ("b", CacheItem.mk (Payload.names ["y"]) 0)]
    "c" (Payload.names ["z"]) 5
  have h3 := c3_fifo_eviction 3
    [("a", CacheItem.mk (Payload.names ["x"]) 0),
     ("b", CacheItem.mk (Payload.names ["y"]) 0)]
    "c" (Payload.names ["z"]) 5
  refine ⟨?_, ?_, ?_⟩
  · have := h3.2.1 (by decide) "a" (by decide)
    rw [this]; rfl
  · exact (h.2.2 (by decide) _ _ rfl).1 (by decide)
  · have := (h.2.2 (by decide) _ _ rfl).2 "b" (by decide) (by decide)
    rw [this]; rfl

/-! ## Consolidated handler's rate limiter (`src/unnamed/part_001`,
`checkRateLimit`) -/

/-- `RATE_WINDOW = 60000`. -/
def RATE_WINDOW : Int := 60000

/-- `MAX_REQUESTS = 30`. -/
def MAX_REQUESTS : Nat := 30

/-- `checkRateLimit(ip)`: prune the identifier's timestamps to the trailing
window, reject (leaving the map untouched) when the pruned count reaches
`MAX_REQUESTS`; otherwise push `now`, store it back, and if the map has
grown past 1000 identifiers delete the first key in iteration order. -/
def checkRateLimit (rateLimits : List (String × List Int)) (ip : String)
    (now : Int) : Bool × List (String × List Int) :=
  let userRequests := (jget rateLimits ip).getD []
  let validRequests := userRequests.filter (fun t => decide (now - t < RATE_WINDOW))
  if MAX_REQUESTS ≤ validRequests.length then (false, rateLimits)
  else
    let rl := jset rateLimits ip (validRequests ++ [now])
    let rl' :=
      if 1000 < rl.length then
        match rl.head? with
        | some oldest => jdelete rl oldest.1
        | none => rl
      else rl
    (true, rl')

theorem checkRateLimit_reject_state (rateLimits : List (String × List Int))
    (ip : String) (now : Int)
    (h : (checkRateLimit rateLimits ip now).1 = false) :
    (checkRateLimit rateLimits ip now).2 = rateLimits := by
  unfold checkRateLimit at h ⊢
  by_cases hc : MAX_REQUESTS ≤
      (((jget rateLimits ip).getD []).filter
        (fun t => decide (now - t < RATE_WINDOW))).length
  · rw [if_pos hc]
  · rw [if_neg hc] at h
    simp at h

theorem checkRateLimit_fresh_admits (rateLimits : List (String × List Int))
    (ip : String) (now : Int) (h : jget rateLimits ip = none) :
    (checkRateLimit rateLimits ip now).1 = true := by
  unfold checkRateLimit
  rw [h]
  simp [MAX_REQUESTS]

/-- C10: after a `checkRateLimit` call on a map of at most 1001 identifiers
the map still has at most 1001 identifiers (the invariant is preserved from
the empty initial map), and when an admitted call from a fresh identifier
pushes the map past 1000 entries, the earliest-inserted identifier's whole
window is deleted — whatever in-window timestamps `w0` it still holds — so
a subsequent check for that identifier is admitted afresh. -/
theorem c10_rate_map_bound (rateLimits : List (String × List Int))
    (ip : String) (now now' : Int)
    (hsize : rateLimits.length ≤ 1001) :
    (checkRateLimit rateLimits ip now).2.length ≤ 1001
    ∧ (∀ (k0 : String) (w0 : List Int) (rest : List (String × List Int)),
        rateLimits = (k0, w0) :: rest →
        (checkRateLimit rateLimits ip now).1 = true →
        jget rateLimits ip = none →
        rateLimits.length = 1000 →
        jget (checkRateLimit rateLimits ip now).2 k0 = none
        ∧ (checkRateLimit (checkRateLimit rateLimits ip now).2 k0 now').1
            = true) := by
  constructor
  · unfold checkRateLimit
    by_cases hc : MAX_REQUESTS ≤
        (((jget rateLimits ip).getD []).filter
          (fun t => decide (now - t < RATE_WINDOW))).length
    · rw [if_pos hc]
      exact hsize
    · rw [if_neg hc]
      simp only
      set rl := jset rateLimits ip
        ((((jget rateLimits ip).getD []).filter
          (fun t => decide (now - t < RATE_WINDOW))) ++ [now]) with hrl
      have hlen : rl.length ≤ rateLimits.length + 1 := length_jset_le _ _ _
      by_cases hbig : 1000 < rl.length
      · rw [if_pos hbig]
        cases hhd : rl.head? with
        | none =>
            have hnil : rl = [] := List.head?_eq_none_iff.mp hhd
            show rl.length ≤ 1001
            simp [hnil]
        | some oldest =>
            show (jdelete rl oldest.1).length ≤ 1001
            obtain ⟨tl, htl⟩ : ∃ tl, rl = oldest :: tl := by
              rcases hrl2 : rl with _ | ⟨a, l⟩
              · rw [hrl2] at hhd; simp at hhd
              · rw [hrl2] at hhd
                simp only [List.head?_cons, Option.some.injEq] at hhd
                exact ⟨l, by rw [hhd]⟩
            have : (jdelete rl oldest.1).length ≤ tl.length := by
              rw [htl]
              obtain ⟨ok, ov⟩ := oldest
              exact length_jdelete_cons_self ok ov tl
            have htll : tl.length + 1 = rl.length := by
              rw [htl]; simp
            omega
      · rw [if_neg hbig]
        omega
  · intro k0 w0 rest hcons hadm hnone hlen1000
    have hne : ¬ k0 = ip := by
      intro he
      rw [hcons] at hnone
      subst he
      simp [jget] at hnone
    have hset : jset rateLimits ip
        ((((jget rateLimits ip).getD []).filter
          (fun t => decide (now - t < RATE_WINDOW))) ++ [now])
        = rateLimits ++ [(ip, (((jget rateLimits ip).getD []).filter
            (fun t => decide (now - t < RATE_WINDOW))) ++ [now])] :=
      jset_append_of_jget_none _ _ _ hnone
    have hnotfull : ¬ MAX_REQUESTS ≤
        (((jget rateLimits ip).getD []).filter
          (fun t => decide (now - t < RATE_WINDOW))).length := by
      rw [hnone]
      simp [MAX_REQUESTS]
    have hstep : (checkRateLimit rateLimits ip now).2
        = jdelete (rateLimits ++ [(ip,
            (((jget rateLimits ip).getD []).filter
              (fun t => decide (now - t < RATE_WINDOW))) ++ [now])]) k0 := by
      unfold checkRateLimit
      rw [if_neg hnotfull]
      simp only
      rw [hset]
      rw [if_pos (by simp [hlen1000])]
      rw [hcons]
      simp only [List.cons_append, List.head?_cons]
    have hdel : jget (checkRateLimit rateLimits ip now).2 k0 = none := by
      rw [hstep]
      exact jget_jdelete_self _ _
    exact ⟨hdel, checkRateLimit_fresh_admits _ _ _ hdel⟩

/-- A concrete rate-limit map of exactly 1000 identifiers, each with one
stored timestamp. -/
def bigRateMap : List (String × List Int) :=
  ("ip0", [0]) :: (List.range 999).map (fun i => ("ip" ++ Nat.repr (i + 1), [0]))

set_option maxRecDepth 10000 in
/-- Witness for C10: an admitted call from the fresh identifier `"fresh"`
on the 1000-identifier map `bigRateMap` leaves at most 1001 entries,
deletes the earliest-inserted identifier `"ip0"` (whose timestamp 0 is
still inside the window at `now = 0`), and a subsequent check for `"ip0"`
is admitted afresh. -/
theorem c10_rate_map_bound_witness :
    (checkRateLimit bigRateMap "fresh" 0).2.length ≤ 1001
    ∧ (jget (checkRateLimit bigRateMap "fresh" 0).2 "ip0" = none
       ∧ (checkRateLimit (checkRateLimit bigRateMap "fresh" 0).2 "ip0" 5).1
           = true) := by
  have h := c10_rate_map_bound bigRateMap "fresh" 0 5 (by decide)
  exact ⟨h.1, h.2 "ip0" [0]
    ((List.range 999).map (fun i => ("ip" ++ Nat.repr (i + 1), [0])))
    rfl (by decide) (by decide) (by decide)⟩

/-! ## Error classification (`src/unnamed/part_001`, catch block)

The catch block inspects `error.message` with `String.includes`; the
message for a non-ok upstream response is built by
`fetchFromGoogleSheets` as `Google Sheets API error: ${status} - ${text}`,
and a transport-level failure surfaces whatever message the rejected
`fetch` carried. -/

/-- `haystack.includes(needle)` on character lists: `true` iff `needle`
occurs as a contiguous substring. -/
def containsList : List Char → List Char → Bool
  | [], needle => needle.isEmpty
  | c :: rest, needle =>
      List.isPrefixOf needle (c :: rest) || containsList rest needle

/-- JS `String.prototype.includes`. -/
def strContains (s sub : String) : Bool := containsList s.data sub.data

theorem containsList_middle (x y needle : List Char) (h : needle ≠ []) :
    containsList (x ++ (needle ++ y)) needle = true := by
  induction x with
  | nil =>
      cases needle with
      | nil => exact absurd rfl h
      | cons c t =>
          show containsList (c :: (t ++ y)) (c :: t) = true
          have hpre : List.isPrefixOf (c :: t) ((c :: t) ++ y) = true :=
            List.isPrefixOf_iff_prefix.mpr (List.prefix_append _ _)
          simp only [containsList]
          rw [show c :: (t ++ y) = (c :: t) ++ y from rfl, hpre]
          simp
  | cons a rest ih =>
      show (List.isPrefixOf needle (a :: (rest ++ (needle ++ y)))
        || containsList (rest ++ (needle ++ y)) needle) = true
      rw [ih]
      simp

/-- The error message thrown by `fetchFromGoogleSheets` on a non-ok
upstream HTTP response. -/
def googleErrMsg (status : Nat) (body : String) : String :=
  "Google Sheets API error: " ++ Nat.repr status ++ " - " ++ body

theorem strContains_google_status (st : Nat) (body digits : String)
    (hd : Nat.repr st = digits) (hne : digits.data ≠ []) :
    strContains (googleErrMsg st body) digits = true := by
  unfold strContains googleErrMsg
  rw [hd]
  simp only [String.data_append, List.append_assoc]
  exact containsList_middle _ _ _ hne

/-! ## Consolidated request handler (`src/unnamed/part_001`) -/

/-- An upstream call the handler can make: the spreadsheet metadata
(sheet-name list) or one sheet's value range. -/
inductive UpReq
  | list
  | values (sheet : String)
deriving DecidableEq, Repr

/-- What the upstream oracle answers: `ok` carries the payload after the
handler's JSON field extraction (`data.sheets.map(s => s.properties.title)`
resp. `result.values || []`); `httpErr` is a non-ok HTTP status with the
response body text; `netErr` is a transport-level rejection with its
message. -/
inductive UpResult
  | ok (p : Payload)
  | httpErr (status : Nat) (body : String)
  | netErr (msg : String)
deriving DecidableEq, Repr

/-- The observable parts of the JSON response the handler sends. -/
structure HResponse where
  status : Nat
  error : Option String
  retryAfter : Option Int
  details : Option String
  payload : Option Payload
deriving DecidableEq, Repr

def okResp (p : Payload) : HResponse :=
  { status := 200, error := none, retryAfter := none, details := none,
    payload := some p }

def errorResp (status : Nat) (e : String) (d : Option String) : HResponse :=
  { status := status, error := some e, retryAfter := none, details := d,
    payload := none }

/-- The catch block: classify the caught error's message by substring
matching, `'404'` first, then `'403'`/`'401'`, then
`'ECONNREFUSED'`/`'ETIMEDOUT'`, else the generic 500. -/
def catchResponse (msg : String) : HResponse :=
  if strContains msg "404" then
    errorResp 404 "រកមិនឃើញសន្លឹកនេះ" (some "Sheet not found")
  else if strContains msg "403" || strContains msg "401" then
    errorResp 403 "មិនមានសិទ្ធិចូលប្រើ" (some "Permission denied or invalid API key")
  else if strContains msg "ECONNREFUSED" || strContains msg "ETIMEDOUT" then
    errorResp 503 "មិនអាចភ្ជាប់ទៅ Google Sheets" (some "Network error")
  else
    errorResp 500 "មានបញ្ហាក្នុងការទាញយកទិន្នន័យ" (some "Internal server error")

/-- `Math.ceil(ms / 1000)` for a nonnegative millisecond count. -/
def ceilSeconds (ms : Int) : Int := (ms + 999) / 1000

/-- The handler's module-level mutable state: the TTL cache `Map` and the
rate-limit `Map`. -/
structure SheetsState where
  cache : List (String × CacheItem)
  rateLimits : List (String × List Int)
deriving DecidableEq, Repr

/-- What one handler invocation produces: the response, the state left
behind, the upstream fetches performed, and the TTL-cache keys read. -/
structure HandlerOut where
  resp : HResponse
  state : SheetsState
  fetches : List UpReq
  cacheReads : List String
deriving DecidableEq, Repr

/-- The consolidated `api/sheets.js` request handler of
`src/unnamed/part_001`: CORS preflight, method check, rate limiting,
environment check, `action=list` routing, `sheet` validation and routing,
with the TTL cache consulted before the upstream oracle and written
through after a successful fetch; fetch failures go through
`catchResponse`.  `ip` is the already-resolved client identifier. -/
def sheetsHandler (apiKey spreadsheetId : Option String) (method ip : String)
    (sheet action : Option String) (now : Int)
    (upstream : UpReq → UpResult) (s : SheetsState) : HandlerOut :=
  if method = "OPTIONS" then
    { resp := { status := 200, error := none, retryAfter := none,
                details := none, payload := none },
      state := s, fetches := [], cacheReads := [] }
  else if ¬ method = "GET" then
    { resp := errorResp 405 "Method not allowed" none,
      state := s, fetches := [], cacheReads := [] }
  else
    let rlr := checkRateLimit s.rateLimits ip now
    if rlr.1 = false then
      { resp := { status := 429,
                  error := some "សូមរង់ចាំបន្តិច - ប្រើប្រាស់ញឹកញាប់ពេក",
                  retryAfter := some (ceilSeconds RATE_WINDOW),
                  details := none, payload := none },
        state := { cache := s.cache, rateLimits := rlr.2 },
        fetches := [], cacheReads := [] }
    else
      let s1 : SheetsState := { cache := s.cache, rateLimits := rlr.2 }
      if apiKey = none ∨ spreadsheetId = none then
        { resp := errorResp 500 "Server configuration error" none,
          state := s1, fetches := [], cacheReads := [] }
      else if action = some "list" then
        let key := getCacheKey none (some "list")
        let g := getCache CACHE_TTL s1.cache key now
        match g.1 with
        | some p =>
            { resp := okResp p,
              state := { cache := g.2, rateLimits := rlr.2 },
              fetches := [], cacheReads := [key] }
        | none =>
            match upstream UpReq.list with
            | UpResult.ok p =>
                { resp := okResp p,
                  state := { cache := setCache MAX_CACHE_SIZE g.2 key p now,
                             rateLimits := rlr.2 },
                  fetches := [UpReq.list], cacheReads := [key] }
            | UpResult.httpErr st b =>
                { resp := catchResponse (googleErrMsg st b),
                  state := { cache := g.2, rateLimits := rlr.2 },
                  fetches := [UpReq.list], cacheReads := [key] }
            | UpResult.netErr m =>
                { resp := catchResponse m,
                  state := { cache := g.2, rateLimits := rlr.2 },
                  fetches := [UpReq.list], cacheReads := [key] }
      else
        match sheet with
        | none =>
            { resp := errorResp 400 "ត្រូវការឈ្មោះសន្លឹក (sheet name required)" none,
              state := s1, fetches := [], cacheReads := [] }
        | some sh =>
            let key := getCacheKey (some sh) none
            let g := getCache CACHE_TTL s1.cache key now
            match g.1 with
            | some p =>
                { resp := okResp p,
                  state := { cache := g.2, rateLimits := rlr.2 },
                  fetches := [], cacheReads := [key] }
            | none =>
                match upstream (UpReq.values sh) with
                | UpResult.ok p =>
                    { resp := okResp p,
                      state := { cache := setCache MAX_CACHE_SIZE g.2 key p now,
                                 rateLimits := rlr.2 },
                      fetches := [UpReq.values sh], cacheReads := [key] }
                | UpResult.httpErr st b =>
                    { resp := catchResponse (googleErrMsg st b),
                      state := { cache := g.2, rateLimits := rlr.2 },
                      fetches := [UpReq.values sh], cacheReads := [key] }
                | UpResult.netErr m =>
                    { resp := catchResponse m,
                      state := { cache := g.2, rateLimits := rlr.2 },
                      fetches := [UpReq.values sh], cacheReads := [key] }

/-- Counterexample for C4 as stated: a rejected request whose window holds
30 timestamps at time 30000, probed at `now = 60000`.  The response carries
`retryAfter = 60` (the constant `ceil(RATE_WINDOW / 1000)`), while the
limiter's `resetAt` for that same window (per `RateLimiter.check`) is
90000, from which the claimed derivation would give 30 seconds — so the
retry-after is not derived from `resetAt`. -/
theorem c4_rate_limited_counterexample :
    (sheetsHandler (some "K") (some "S") "GET" "9.9.9.9" (some "Roster") none
        60000 (fun _ => UpResult.netErr "x")
        { cache := [], rateLimits := [("9.9.9.9", List.replicate 30 30000)] }
      ).resp.status = 429
    ∧ (sheetsHandler (some "K") (some "S") "GET" "9.9.9.9" (some "Roster") none
        60000 (fun _ => UpResult.netErr "x")
        { cache := [], rateLimits := [("9.9.9.9", List.replicate 30 30000)] }
      ).resp.retryAfter = some 60
    ∧ (RateLimiter.check 30 60000 (List.replicate 30 30000) 60000).1.resetAt
        = 90000
    ∧ ceilSeconds
        ((RateLimiter.check 30 60000 (List.replicate 30 30000) 60000).1.resetAt
          - 60000) = 30
    ∧ ¬ (sheetsHandler (some "K") (some "S") "GET" "9.9.9.9" (some "Roster")
        none 60000 (fun _ => UpResult.netErr "x")
        { cache := [], rateLimits := [("9.9.9.9", List.replicate 30 30000)] }
      ).resp.retryAfter = some 30 := by
  refine ⟨?_, ?_, ?_, ?_, ?_⟩ <;> decide

/-- C4 (amended): a non-OPTIONS request (only GETs reach the limiter)
whose identifier the limiter rejects gets a 429 response carrying the
constant retry-after `ceil(RATE_WINDOW / 1000)` seconds, and the handler
performs no TTL-cache read, no TTL-cache write and no upstream fetch: the
whole handler state (cache and rate-limit map alike) is unchanged. -/
theorem c4_rate_limited_rejection (apiKey spreadsheetId : Option String)
    (ip : String) (sheet action : Option String) (now : Int)
    (upstream : UpReq → UpResult) (s : SheetsState)
    (hrej : (checkRateLimit s.rateLimits ip now).1 = false) :
    (sheetsHandler apiKey spreadsheetId "GET" ip sheet action now upstream s
      ).resp.status = 429
    ∧ (sheetsHandler apiKey spreadsheetId "GET" ip sheet action now upstream s
      ).resp.retryAfter = some (ceilSeconds RATE_WINDOW)
    ∧ (sheetsHandler apiKey spreadsheetId "GET" ip sheet action now upstream s
      ).state = s
    ∧ (sheetsHandler apiKey spreadsheetId "GET" ip sheet action now upstream s
      ).fetches = []
    ∧ (sheetsHandler apiKey spreadsheetId "GET" ip sheet action now upstream s
      ).cacheReads = [] := by
  have hstate := checkRateLimit_reject_state s.rateLimits ip now hrej
  have hred : sheetsHandler apiKey spreadsheetId "GET" ip sheet action now
      upstream s
      = { resp := { status := 429,
                    error := some "សូមរង់ចាំបន្តិច - ប្រើប្រាស់ញឹកញាប់ពេក",
                    retryAfter := some (ceilSeconds RATE_WINDOW),
                    details := none, payload := none },
          state := { cache := s.cache,
                     rateLimits := (checkRateLimit s.rateLimits ip now).2 },
          fetches := [], cacheReads := [] } := by
    unfold sheetsHandler
    rw [if_neg (by decide), if_neg (by decide)]
    simp only [hrej, if_true]
  rw [hred, hstate]
  exact ⟨rfl, rfl, rfl, rfl, rfl⟩

/-- Witness for C4 (amended), at the counterexample's rejected state. -/
theorem c4_rate_limited_rejection_witness :
    (sheetsHandler (some "K") (some "S") "GET" "9.9.9.9" (some "Roster") none
        60000 (fun _ => UpResult.netErr "x")
        { cache := [], rateLimits := [("9.9.9.9", List.replicate 30 30000)] }
      ).resp.status = 429
    ∧ (sheetsHandler (some "K") (some "S") "GET" "9.9.9.9" (some "Roster") none
        60000 (fun _ => UpResult.netErr "x")
        { cache := [], rateLimits := [("9.9.9.9", List.replicate 30 30000)] }
      ).state
        = { cache := [],
            rateLimits := [("9.9.9.9", List.replicate 30 30000)] } :=
  have h := c4_rate_limited_rejection (some "K") (some "S") "9.9.9.9"
    (some "Roster") none 60000 (fun _ => UpResult.netErr "x")
    { cache := [], rateLimits := [("9.9.9.9", List.replicate 30 30000)] }
    (by decide)
  ⟨h.1, h.2.2.1⟩

/-- Counterexample for C8 as stated: a GET that passes rate limiting (fresh
identifier, empty map) and supplies neither `action=list` nor a sheet name
is answered with 500, not 400, when the upstream credentials are missing
from the environment — the handler checks the environment before
validating the query parameters. -/
theorem c8_validation_counterexample :
    (sheetsHandler none none "GET" "1.2.3.4" none none 0
        (fun _ => UpResult.netErr "x")
        { cache := [], rateLimits := [] }).resp.status = 500
    ∧ ¬ (sheetsHandler none none "GET" "1.2.3.4" none none 0
        (fun _ => UpResult.netErr "x")
        { cache := [], rateLimits := [] }).resp.status = 400 := by
  constructor
  · decide
  · decide

/-- C8 (amended): a non-OPTIONS GET that passes rate limiting and supplies
neither `action=list` nor a sheet name is answered with a 400 validation
error — provided the upstream credentials are configured — and the handler
terminates without invoking the fetcher and without reading or writing the
TTL cache; when the credentials are missing the handler instead answers
500 (configuration error) before parameter validation, likewise with no
fetch and no cache access. -/
theorem c8_validation (apiKey spreadsheetId ip : String)
    (envK envS : Option String) (action : Option String) (now : Int)
    (upstream : UpReq → UpResult) (s : SheetsState)
    (hadm : (checkRateLimit s.rateLimits ip now).1 = true)
    (hact : ¬ action = some "list") :
    ((sheetsHandler (some apiKey) (some spreadsheetId) "GET" ip none action
        now upstream s).resp.status = 400
      ∧ (sheetsHandler (some apiKey) (some spreadsheetId) "GET" ip none action
        now upstream s).fetches = []
      ∧ (sheetsHandler (some apiKey) (some spreadsheetId) "GET" ip none action
        now upstream s).cacheReads = []
      ∧ (sheetsHandler (some apiKey) (some spreadsheetId) "GET" ip none action
        now upstream s).state.cache = s.cache)
    ∧ (envK = none ∨ envS = none →
        (sheetsHandler envK envS "GET" ip none action now upstream s
          ).resp.status = 500
        ∧ (sheetsHandler envK envS "GET" ip none action now upstream s
          ).fetches = []
        ∧ (sheetsHandler envK envS "GET" ip none action now upstream s
          ).cacheReads = []
        ∧ (sheetsHandler envK envS "GET" ip none action now upstream s
          ).state.cache = s.cache) := by
  have hnotrej : ¬ ((checkRateLimit s.rateLimits ip now).1 = false) := by
    simp [hadm]
  constructor
  · have hred : sheetsHandler (some apiKey) (some spreadsheetId) "GET" ip
        none action now upstream s
        = { resp := errorResp 400
              "ត្រូវការឈ្មោះសន្លឹក (sheet name required)" none,
            state := { cache := s.cache,
                       rateLimits := (checkRateLimit s.rateLimits ip now).2 },
            fetches := [], cacheReads := [] } := by
      unfold sheetsHandler
      rw [if_neg (by decide), if_neg (by decide), if_neg hnotrej,
        if_neg (by simp), if_neg hact]
    rw [hred]
    exact ⟨rfl, rfl, rfl, rfl⟩
  · intro hmiss
    have hred : sheetsHandler envK envS "GET" ip none action now upstream s
        = { resp := errorResp 500 "Server configuration error" none,
            state := { cache := s.cache,
                       rateLimits := (checkRateLimit s.rateLimits ip now).2 },
            fetches := [], cacheReads := [] } := by
      unfold sheetsHandler
      rw [if_neg (by decide), if_neg (by decide), if_neg hnotrej,
        if_pos hmiss]
    rw [hred]
    exact ⟨rfl, rfl, rfl, rfl⟩

/-- Witness for C8 (amended): configured credentials, fresh identifier,
neither query parameter. -/
theorem c8_validation_witness :
    (sheetsHandler (some "K") (some "S") "GET" "1.2.3.4" none none 0
        (fun _ => UpResult.netErr "x")
        { cache := [], rateLimits := [] }).resp.status = 400
    ∧ (sheetsHandler none none "GET" "1.2.3.4" none none 0
        (fun _ => UpResult.netErr "x")
        { cache := [], rateLimits := [] }).resp.status = 500 :=
  have h := c8_validation "K" "S" "1.2.3.4" none none none 0
    (fun _ => UpResult.netErr "x") { cache := [], rateLimits := [] }
    (by decide) (by decide)
  ⟨h.1.1, (h.2 (Or.inl rfl)).1⟩

theorem sheetsHandler_miss_resp (a b ip sh : String) (now : Int)
    (upstream : UpReq → UpResult) (s : SheetsState)
    (hadm : (checkRateLimit s.rateLimits ip now).1 = true)
    (hmiss : (getCache CACHE_TTL s.cache ("sheet:" ++ sh) now).1 = none) :
    (sheetsHandler (some a) (some b) "GET" ip (some sh) none now upstream s
      ).resp
      = match upstream (UpReq.values sh) with
        | UpResult.ok p => okResp p
        | UpResult.httpErr st body => catchResponse (googleErrMsg st body)
        | UpResult.netErr m => catchResponse m := by
  have hnotrej : ¬ ((checkRateLimit s.rateLimits ip now).1 = false) := by
    simp [hadm]
  unfold sheetsHandler
  rw [if_neg (by decide), if_neg (by decide), if_neg hnotrej,
    if_neg (by simp), if_neg (by decide)]
  simp only [getCacheKey]
  rw [hmiss]
  cases upstream (UpReq.values sh) <;> rfl

/-- Counterexample for C5 as stated: an upstream 401 whose error body text
happens to contain the digits 404 (here `"see /p404 missing"`) is answered
with a 404 not-found response instead of the claimed 403
permission-denied response — the catch block classifies by substring
matching on the composed message, and the `'404'` test runs first. -/
theorem c5_error_mapping_counterexample :
    (sheetsHandler (some "K") (some "S") "GET" "1.2.3.4" (some "Roster") none
        0 (fun _ => UpResult.httpErr 401 "see /p404 missing")
        { cache := [], rateLimits := [] }).resp.status = 404
    ∧ ¬ (sheetsHandler (some "K") (some "S") "GET" "1.2.3.4" (some "Roster")
        none 0 (fun _ => UpResult.httpErr 401 "see /p404 missing")
        { cache := [], rateLimits := [] }).resp.status = 403 := by
  constructor
  · decide
  · decide

/-- C5 (amended): on a cache miss the handler maps an upstream-fetch
failure by substring matching on the error message, with `'404'` taking
priority: an upstream 404 always yields the 404 not-found response (its
status digits are in the message); an upstream 401 or 403 yields the 403
permission-denied response provided the composed message does not contain
`'404'`; a transport failure whose message contains `'ECONNREFUSED'` or
`'ETIMEDOUT'` (and none of `'404'`, `'403'`, `'401'`) yields the 503
network-error response; a failure whose message contains none of the five
substrings yields the generic 500. -/
theorem c5_error_mapping (a b ip sh : String) (now : Int) (s : SheetsState)
    (body msg : String)
    (hadm : (checkRateLimit s.rateLimits ip now).1 = true)
    (hmiss : (getCache CACHE_TTL s.cache ("sheet:" ++ sh) now).1 = none) :
    ((sheetsHandler (some a) (some b) "GET" ip (some sh) none now
        (fun _ => UpResult.httpErr 404 body) s).resp.status = 404)
    ∧ (∀ st, st = 401 ∨ st = 403 →
        strContains (googleErrMsg st body) "404" = false →
        (sheetsHandler (some a) (some b) "GET" ip (some sh) none now
          (fun _ => UpResult.httpErr st body) s).resp.status = 403)
    ∧ (strContains msg "404" = false → strContains msg "403" = false →
        strContains msg "401" = false →
        (strContains msg "ECONNREFUSED" = true
          ∨ strContains msg "ETIMEDOUT" = true) →
        (sheetsHandler (some a) (some b) "GET" ip (some sh) none now
          (fun _ => UpResult.netErr msg) s).resp.status = 503)
    ∧ (strContains msg "404" = false → strContains msg "403" = false →
        strContains msg "401" = false →
        strContains msg "ECONNREFUSED" = false →
        strContains msg "ETIMEDOUT" = false →
        (sheetsHandler (some a) (some b) "GET" ip (some sh) none now
          (fun _ => UpResult.netErr msg) s).resp.status = 500) := by
  refine ⟨?_, ?_, ?_, ?_⟩
  · rw [sheetsHandler_miss_resp a b ip sh now _ s hadm hmiss]
    show (catchResponse (googleErrMsg 404 body)).status = 404
    unfold catchResponse
    rw [if_pos (strContains_google_status 404 body "404" rfl (by decide))]
    rfl
  · intro st hst h404
    rw [sheetsHandler_miss_resp a b ip sh now _ s hadm hmiss]
    show (catchResponse (googleErrMsg st body)).status = 403
    unfold catchResponse
    rw [if_neg (by simp [h404])]
    rcases hst with h | h
    · subst h
      rw [if_pos (by
        rw [strContains_google_status 401 body "401" rfl (by decide)]
        simp)]
      rfl
    · subst h
      rw [if_pos (by
        rw [strContains_google_status 403 body "403" rfl (by decide)]
        simp)]
      rfl
  · intro h404 h403 h401 hcon
    rw [sheetsHandler_miss_resp a b ip sh now _ s hadm hmiss]
    show (catchResponse msg).status = 503
    unfold catchResponse
    rw [if_neg (by simp [h404]), if_neg (by simp [h403, h401]),
      if_pos (by rcases hcon with h | h <;> simp [h])]
    rfl
  · intro h404 h403 h401 hcr htm
    rw [sheetsHandler_miss_resp a b ip sh now _ s hadm hmiss]
    show (catchResponse msg).status = 500
    unfold catchResponse
    rw [if_neg (by simp [h404]), if_neg (by simp [h403, h401]),
      if_neg (by simp [hcr, htm])]
    rfl

/-- Witness for C5 (amended): concrete upstream failures against an empty
cache and a fresh identifier — a 404, a 401 with a clean body, a transport
refusal, and an unclassifiable message. -/
theorem c5_error_mapping_witness :
    (sheetsHandler (some "K") (some "S") "GET" "1.2.3.4" (some "Roster") none
        0 (fun _ => UpResult.httpErr 404 "no access")
        { cache := [], rateLimits := [] }).resp.status = 404
    ∧ (sheetsHandler (some "K") (some "S") "GET" "1.2.3.4" (some "Roster")
        none 0 (fun _ => UpResult.httpErr 401 "no access")
        { cache := [], rateLimits := [] }).resp.status = 403
    ∧ (sheetsHandler (some "K") (some "S") "GET" "1.2.3.4" (some "Roster")
        none 0 (fun _ => UpResult.netErr "connect ECONNREFUSED 10.0.0.1:443")
        { cache := [], rateLimits := [] }).resp.status = 503
    ∧ (sheetsHandler (some "K") (some "S") "GET" "1.2.3.4" (some "Roster")
        none 0 (fun _ => UpResult.netErr "boom")
        { cache := [], rateLimits := [] }).resp.status = 500 :=
  have h1 := c5_error_mapping "K" "S" "1.2.3.4" "Roster" 0
    { cache := [], rateLimits := [] } "no access"
    "connect ECONNREFUSED 10.0.0.1:443" (by decide) (by decide)
  have h2 := c5_error_mapping "K" "S" "1.2.3.4" "Roster" 0
    { cache := [], rateLimits := [] } "no access" "boom"
    (by decide) (by decide)
  ⟨h1.1,
   h1.2.1 401 (Or.inl rfl) (by decide),
   h1.2.2.1 (by decide) (by decide) (by decide) (Or.inl (by decide)),
   h2.2.2.2 (by decide) (by decide) (by decide) (by decide) (by decide)⟩

/-! ## Service worker fetch strategies (`src/sw.js`)

Requests are identified by their URL string; a named cache store
(`caches.open(...)` + `cache.match` / `cache.put`) is an insertion-ordered
map from URL to stored response.  The network is an oracle from URL to
either a resolved response (of any status) or a transport rejection.
Background refreshes (`fetch(...).then(...)` without `await`) are
fire-and-forget; their store writes are modeled as applied to the store the
handler returns, and their failures are swallowed (`.catch(() => {})`), so
they never affect the handler's returned response. -/

/-- The observable parts of a worker-side `Response`: HTTP status, body,
the `offline` marker of the synthesized JSON payload, and whether an
`X-Cached: true` header was added. -/
structure SWResponse where
  status : Nat
  body : String
  offline : Bool
  xCached : Bool
deriving DecidableEq, Repr

/-- What `fetch(request)` does: resolve with a response (any status) or
reject (transport failure). -/
inductive NetResult
  | resp (r : SWResponse)
  | netFail
deriving DecidableEq, Repr

/-- `handleAPIRequest`: network-first; cache the response only when its
status is exactly 200; on rejection fall back to the cached copy (returned
with an `X-Cached: true` header) or, absent one, a synthesized localized
offline JSON payload with status 503 and `offline: true`.  Returns the
response and the API store after the call; every path returns a response,
so the fetch failure never escapes the handler. -/
def handleAPIRequest (net : String → NetResult)
    (apiCache : List (String × SWResponse)) (url : String) :
    SWResponse × List (String × SWResponse) :=
  match net url with
  | NetResult.resp r =>
      if r.status = 200 then (r, jset apiCache url r) else (r, apiCache)
  | NetResult.netFail =>
      match jget apiCache url with
      | some cr =>
          ({ status := cr.status, body := cr.body, offline := cr.offline,
             xCached := true }, apiCache)
      | none =>
          ({ status := 503, body := "អ៊ីនធឺណិតមានបញ្ហា", offline := true,
             xCached := false }, apiCache)

/-- `handleStaticRequest`: cache-first; on a hit return the cached copy and
refresh the store in the background (write only on status 200, failures
swallowed); on a miss fetch, cache a 200, and on rejection answer a plain
`Offline` 503. -/
def handleStaticRequest (net : String → NetResult)
    (staticCache : List (String × SWResponse)) (url : String) :
    SWResponse × List (String × SWResponse) :=
  match jget staticCache url with
  | some cr =>
      let refreshed :=
        match net url with
        | NetResult.resp nr =>
            if nr.status = 200 then jset staticCache url nr else staticCache
        | NetResult.netFail => staticCache
      (cr, refreshed)
  | none =>
      match net url with
      | NetResult.resp nr =>
          if nr.status = 200 then (nr, jset staticCache url nr)
          else (nr, staticCache)
      | NetResult.netFail =>
          ({ status := 503, body := "Offline", offline := false,
             xCached := false }, staticCache)

/-- `handleDocumentRequest`: network-first against the dynamic store; cache
a 200; on rejection return the cached copy of the request, else
`cache.match('/index.html')` — a lookup scoped to the DYNAMIC store only,
which yields no response (`none`) when the root document is cached
elsewhere (the install step caches it in the STATIC store). -/
def handleDocumentRequest (net : String → NetResult)
    (dynamicCache : List (String × SWResponse)) (url : String) :
    Option SWResponse × List (String × SWResponse) :=
  match net url with
  | NetResult.resp nr =>
      if nr.status = 200 then (some nr, jset dynamicCache url nr)
      else (some nr, dynamicCache)
  | NetResult.netFail =>
      match jget dynamicCache url with
      | some cr => (some cr, dynamicCache)
      | none => (jget dynamicCache "/index.html", dynamicCache)

/-- `handleDynamicRequest`: cache-first with background refresh on a hit
(write only on status 200); on a miss fetch, cache a 200, and on rejection
answer a plain 503. -/
def handleDynamicRequest (net : String → NetResult)
    (dynamicCache : List (String × SWResponse)) (url : String) :
    SWResponse × List (String × SWResponse) :=
  match jget dynamicCache url with
  | some cr =>
      let refreshed :=
        match net url with
        | NetResult.resp nr =>
            if nr.status = 200 then jset dynamicCache url nr else dynamicCache
        | NetResult.netFail => dynamicCache
      (cr, refreshed)
  | none =>
      match net url with
      | NetResult.resp nr =>
          if nr.status = 200 then (nr, jset dynamicCache url nr)
          else (nr, dynamicCache)
      | NetResult.netFail =>
          ({ status := 503, body := "Resource unavailable offline",
             offline := false, xCached := false }, dynamicCache)

/-- The static-asset manifest cached on install (`STATIC_ASSETS`), and the
install step that populates the STATIC store with it. -/
def STATIC_ASSETS : List String :=
  ["/", "/index.html", "/tracking.html", "/manifest.json",
   "https://cdn.jsdelivr.net/npm/bootstrap@5.3.0/dist/css/bootstrap.min.css",
   "https://cdnjs.cloudflare.com/ajax/libs/font-awesome/6.4.0/css/all.min.css",
   "https://fonts.googleapis.com/css2?family=Battambang:wght@300;400;600;700&family=Moul&display=swap"]

/-- `install`: `cache.addAll(STATIC_ASSETS...)` over the STATIC store, with
`pages` giving the fetched response for each manifested URL. -/
def installStatic (pages : String → SWResponse) :
    List (String × SWResponse) :=
  STATIC_ASSETS.foldl (fun c u => jset c u (pages u)) []

theorem jget_jset_cases {β : Type} (m : List (String × β)) (u k : String)
    (v w : β) (h : jget (jset m u v) k = some w) :
    jget m k = some w ∨ w = v := by
  by_cases hk : k = u
  · subst hk
    rw [jget_jset_self] at h
    injection h with hh
    exact Or.inr hh.symm
  · rw [jget_jset_other m u k v hk] at h
    exact Or.inl h

theorem cached_from_jset_200 {store : List (String × SWResponse)}
    {url k : String} {nr r : SWResponse} (h200 : nr.status = 200)
    (h : jget (jset store url nr) k = some r) :
    jget store k = some r ∨ r.status = 200 := by
  rcases jget_jset_cases store url k nr r h with h' | h'
  · exact Or.inl h'
  · rw [h']
    exact Or.inr h200

/-- C6: the document-fallback path of `src/sw.js` is broken.  Install
populates the STATIC store (so the root document `/index.html` is cached
there), but `handleDocumentRequest` looks for the fallback only in the
DYNAMIC store: with the network unreachable and no prior dynamic-cache
copy of the requested document, the handler returns no response at all
(`none`, i.e. `respondWith(undefined)`, a hard failure) even though a
cached root document exists in the worker's stores.  The older worker
(`src/unnamed/part_000`) used the store-spanning `caches.match` here. -/
theorem c6_document_fallback_bug :
    jget (installStatic (fun _ =>
        { status := 200, body := "shell", offline := false,
          xCached := false })) "/index.html"
      = some { status := 200, body := "shell", offline := false,
               xCached := false }
    ∧ (handleDocumentRequest (fun _ => NetResult.netFail) [] "/tracking.html"
      ).1 = none := by
  constructor
  · decide
  · decide



theorem handleAPIRequest_eq_resp (net : String → NetResult)
    (c : List (String × SWResponse)) (url : String) (r : SWResponse)
    (hr : net url = NetResult.resp r) :
    handleAPIRequest net c url
      = if r.status = 200 then (r, jset c url r) else (r, c) := by
  unfold handleAPIRequest
  rw [hr]

theorem handleAPIRequest_eq_fail_hit (net : String → NetResult)
    (c : List (String × SWResponse)) (url : String) (cr : SWResponse)
    (hf : net url = NetResult.netFail) (hg : jget c url = some cr) :
    handleAPIRequest net c url
      = ({ status := cr.status, body := cr.body, offline := cr.offline,
           xCached := true }, c) := by
  unfold handleAPIRequest
  rw [hf, hg]

theorem handleAPIRequest_eq_fail_miss (net : String → NetResult)
    (c : List (String × SWResponse)) (url : String)
    (hf : net url = NetResult.netFail) (hg : jget c url = none) :
    handleAPIRequest net c url
      = ({ status := 503, body := "អ៊ីនធឺណិតមានបញ្ហា", offline := true,
           xCached := false }, c) := by
  unfold handleAPIRequest
  rw [hf, hg]

theorem handleStaticRequest_eq_hit_resp (net : String → NetResult)
    (c : List (String × SWResponse)) (url : String) (cr nr : SWResponse)
    (hg : jget c url = some cr) (hn : net url = NetResult.resp nr) :
    handleStaticRequest net c url
      = (cr, if nr.status = 200 then jset c url nr else c) := by
  unfold handleStaticRequest
  rw [hg, hn]

theorem handleStaticRequest_eq_hit_fail (net : String → NetResult)
    (c : List (String × SWResponse)) (url : String) (cr : SWResponse)
    (hg : jget c url = some cr) (hn : net url = NetResult.netFail) :
    handleStaticRequest net c url = (cr, c) := by
  unfold handleStaticRequest
  rw [hg, hn]

theorem handleStaticRequest_eq_miss_resp (net : String → NetResult)
    (c : List (String × SWResponse)) (url : String) (nr : SWResponse)
    (hg : jget c url = none) (hn : net url = NetResult.resp nr) :
    handleStaticRequest net c url
      = if nr.status = 200 then (nr, jset c url nr) else (nr, c) := by
  unfold handleStaticRequest
  rw [hg, hn]

theorem handleStaticRequest_eq_miss_fail (net : String → NetResult)
    (c : List (String × SWResponse)) (url : String)
    (hg : jget c url = none) (hn : net url = NetResult.netFail) :
    handleStaticRequest net c url
      = ({ status := 503, body := "Offline", offline := false,
           xCached := false }, c) := by
  unfold handleStaticRequest
  rw [hg, hn]

theorem handleDocumentRequest_eq_resp (net : String → NetResult)
    (c : List (String × SWResponse)) (url : String) (nr : SWResponse)
    (hn : net url = NetResult.resp nr) :
    handleDocumentRequest net c url
      = if nr.status = 200 then (some nr, jset c url nr)
        else (some nr, c) := by
  unfold handleDocumentRequest
  rw [hn]

theorem handleDocumentRequest_eq_fail_hit (net : String → NetResult)
    (c : List (String × SWResponse)) (url : String) (cr : SWResponse)
    (hn : net url = NetResult.netFail) (hg : jget c url = some cr) :
    handleDocumentRequest net c url = (some cr, c) := by
  unfold handleDocumentRequest
  rw [hn, hg]

theorem handleDocumentRequest_eq_fail_miss (net : String → NetResult)
    (c : List (String × SWResponse)) (url : String)
    (hn : net url = NetResult.netFail) (hg : jget c url = none) :
    handleDocumentRequest net c url = (jget c "/index.html", c) := by
  unfold handleDocumentRequest
  rw [hn, hg]

theorem handleDynamicRequest_eq_hit_resp (net : String → NetResult)
    (c : List (String × SWResponse)) (url : String) (cr nr : SWResponse)
    (hg : jget c url = some cr) (hn : net url = NetResult.resp nr) :
    handleDynamicRequest net c url
      = (cr, if nr.status = 200 then jset c url nr else c) := by
  unfold handleDynamicRequest
  rw [hg, hn]

theorem handleDynamicRequest_eq_hit_fail (net : String → NetResult)
    (c : List (String × SWResponse)) (url : String) (cr : SWResponse)
    (hg : jget c url = some cr) (hn : net url = NetResult.netFail) :
    handleDynamicRequest net c url = (cr, c) := by
  unfold handleDynamicRequest
  rw [hg, hn]

theorem handleDynamicRequest_eq_miss_resp (net : String → NetResult)
    (c : List (String × SWResponse)) (url : String) (nr : SWResponse)
    (hg : jget c url = none) (hn : net url = NetResult.resp nr) :
    handleDynamicRequest net c url
      = if nr.status = 200 then (nr, jset c url nr) else (nr, c) := by
  unfold handleDynamicRequest
  rw [hg, hn]

theorem handleDynamicRequest_eq_miss_fail (net : String → NetResult)
    (c : List (String × SWResponse)) (url : String)
    (hg : jget c url = none) (hn : net url = NetResult.netFail) :
    handleDynamicRequest net c url
      = ({ status := 503, body := "Resource unavailable offline",
           offline := false, xCached := false }, c) := by
  unfold handleDynamicRequest
  rw [hg, hn]

/-- C7: for every intercepted API request, `handleAPIRequest` tries the
network first: a resolved response is returned as-is and written to the API
store exactly when its status is 200; on a network failure the cached copy
is returned (marked `X-Cached: true`) when present, and otherwise the
synthesized localized offline payload with status 503 and `offline = true`;
the store is untouched on the failure path.  The handler is a total
function: every case yields a response, so the fetch failure never escapes
as an unhandled rejection. -/
theorem c7_api_network_first (net : String → NetResult)
    (apiCache : List (String × SWResponse)) (url : String) :
    (∀ r, net url = NetResult.resp r →
        (handleAPIRequest net apiCache url).1 = r
        ∧ (r.status = 200 →
            (handleAPIRequest net apiCache url).2 = jset apiCache url r)
        ∧ (¬ r.status = 200 →
            (handleAPIRequest net apiCache url).2 = apiCache))
    ∧ (net url = NetResult.netFail →
        (∀ cr, jget apiCache url = some cr →
            (handleAPIRequest net apiCache url).1
              = { status := cr.status, body := cr.body,
                  offline := cr.offline, xCached := true })
        ∧ (jget apiCache url = none →
            (handleAPIRequest net apiCache url).1
              = { status := 503, body := "អ៊ីនធឺណិតមានបញ្ហា",
                  offline := true, xCached := false })
        ∧ (handleAPIRequest net apiCache url).2 = apiCache) := by
  constructor
  · intro r hr
    by_cases hs : r.status = 200
    · rw [handleAPIRequest_eq_resp net apiCache url r hr, if_pos hs]
      exact ⟨rfl, fun _ => rfl, fun hn => absurd hs hn⟩
    · rw [handleAPIRequest_eq_resp net apiCache url r hr, if_neg hs]
      exact ⟨rfl, fun h => absurd h hs, fun _ => rfl⟩
  · intro hf
    rcases hg : jget apiCache url with _ | cr
    · rw [handleAPIRequest_eq_fail_miss net apiCache url hf hg]
      refine ⟨?_, fun _ => rfl, rfl⟩
      intro cr' h
      exact Option.noConfusion h
    · rw [handleAPIRequest_eq_fail_hit net apiCache url cr hf hg]
      refine ⟨?_, ?_, rfl⟩
      · intro cr' h
        injection h with hh
        rw [hh]
      · intro h
        exact Option.noConfusion h

/-- Witness for C7: a 200 response is cached and returned; with the network
down a cached copy is served with the `X-Cached` marker; with the network
down and an empty store the synthesized offline payload is served. -/
theorem c7_api_network_first_witness :
    (handleAPIRequest (fun _ => NetResult.resp
        { status := 200, body := "data", offline := false, xCached := false })
        [] "/api/sheets").1
      = { status := 200, body := "data", offline := false, xCached := false }
    ∧ (handleAPIRequest (fun _ => NetResult.netFail)
        [("/api/sheets",
          { status := 200, body := "data", offline := false,
            xCached := false })] "/api/sheets").1
      = { status := 200, body := "data", offline := false, xCached := true }
    ∧ (handleAPIRequest (fun _ => NetResult.netFail) [] "/api/sheets").1
      = { status := 503, body := "អ៊ីនធឺណិតមានបញ្ហា", offline := true,
          xCached := false } :=
  have hA := c7_api_network_first (fun _ => NetResult.resp
    { status := 200, body := "data", offline := false, xCached := false })
    [] "/api/sheets"
  have hB := c7_api_network_first (fun _ => NetResult.netFail)
    [("/api/sheets",
      { status := 200, body := "data", offline := false, xCached := false })]
    "/api/sheets"
  have hC := c7_api_network_first (fun _ => NetResult.netFail) [] "/api/sheets"
  ⟨(hA.1 _ rfl).1,
   (hB.2 rfl).1
     { status := 200, body := "data", offline := false, xCached := false }
     (by decide),
   (hC.2 rfl).2.1 (by decide)⟩

/-- C9: across all four fetch strategies of `src/sw.js`, every entry found
in a cache store after the handler ran was either already there before the
call or is a response whose status is exactly 200: responses with any other
status, and failed fetches, are never written into a store. -/
theorem c9_only_ok_cached (net : String → NetResult)
    (store : List (String × SWResponse)) (url k : String) (r : SWResponse) :
    (jget (handleAPIRequest net store url).2 k = some r →
      jget store k = some r ∨ r.status = 200)
    ∧ (jget (handleStaticRequest net store url).2 k = some r →
      jget store k = some r ∨ r.status = 200)
    ∧ (jget (handleDocumentRequest net store url).2 k = some r →
      jget store k = some r ∨ r.status = 200)
    ∧ (jget (handleDynamicRequest net store url).2 k = some r →
      jget store k = some r ∨ r.status = 200) := by
  refine ⟨?_, ?_, ?_, ?_⟩
  · rcases hn : net url with nr | _
    · by_cases hs : nr.status = 200
      · rw [handleAPIRequest_eq_resp net store url nr hn, if_pos hs]
        exact fun h => cached_from_jset_200 hs h
      · rw [handleAPIRequest_eq_resp net store url nr hn, if_neg hs]
        exact fun h => Or.inl h
    · rcases hg : jget store url with _ | cr
      · rw [handleAPIRequest_eq_fail_miss net store url hn hg]
        exact fun h => Or.inl h
      · rw [handleAPIRequest_eq_fail_hit net store url cr hn hg]
        exact fun h => Or.inl h
  · rcases hg : jget store url with _ | cr
    · rcases hn : net url with nr | _
      · by_cases hs : nr.status = 200
        · rw [handleStaticRequest_eq_miss_resp net store url nr hg hn,
            if_pos hs]
          exact fun h => cached_from_jset_200 hs h
        · rw [handleStaticRequest_eq_miss_resp net store url nr hg hn,
            if_neg hs]
          exact fun h => Or.inl h
      · rw [handleStaticRequest_eq_miss_fail net store url hg hn]
        exact fun h => Or.inl h
    · rcases hn : net url with nr | _
      · by_cases hs : nr.status = 200
        · rw [handleStaticRequest_eq_hit_resp net store url cr nr hg hn,
            if_pos hs]
          exact fun h => cached_from_jset_200 hs h
        · rw [handleStaticRequest_eq_hit_resp net store url cr nr hg hn,
            if_neg hs]
          exact fun h => Or.inl h
      · rw [handleStaticRequest_eq_hit_fail net store url cr hg hn]
        exact fun h => Or.inl h
  · rcases hn : net url with nr | _
    · by_cases hs : nr.status = 200
      · rw [handleDocumentRequest_eq_resp net store url nr hn, if_pos hs]
        exact fun h => cached_from_jset_200 hs h
      · rw [handleDocumentRequest_eq_resp net store url nr hn, if_neg hs]
        exact fun h => Or.inl h
    · rcases hg : jget store url with _ | cr
      · rw [handleDocumentRequest_eq_fail_miss net store url hn hg]
        exact fun h => Or.inl h
      · rw [handleDocumentRequest_eq_fail_hit net store url cr hn hg]
        exact fun h => Or.inl h
  · rcases hg : jget store url with _ | cr
    · rcases hn : net url with nr | _
      · by_cases hs : nr.status = 200
        · rw [handleDynamicRequest_eq_miss_resp net store url nr hg hn,
            if_pos hs]
          exact fun h => cached_from_jset_200 hs h
        · rw [handleDynamicRequest_eq_miss_resp net store url nr hg hn,
            if_neg hs]
          exact fun h => Or.inl h
      · rw [handleDynamicRequest_eq_miss_fail net store url hg hn]
        exact fun h => Or.inl h
    · rcases hn : net url with nr | _
      · by_cases hs : nr.status = 200
        · rw [handleDynamicRequest_eq_hit_resp net store url cr nr hg hn,
            if_pos hs]
          exact fun h => cached_from_jset_200 hs h
        · rw [handleDynamicRequest_eq_hit_resp net store url cr nr hg hn,
            if_neg hs]
          exact fun h => Or.inl h
      · rw [handleDynamicRequest_eq_hit_fail net store url cr hg hn]
        exact fun h => Or.inl h

/-- Witness for C9: a 200 network response written by the API strategy and
by the dynamic strategy into an initially empty store. -/
theorem c9_only_ok_cached_witness :
    (jget ([] : List (String × SWResponse)) "/x"
        = some { status := 200, body := "ok", offline := false,
                 xCached := false }
      ∨ ({ status := 200, body := "ok", offline := false,
           xCached := false } : SWResponse).status = 200)
    ∧ (jget ([] : List (String × SWResponse)) "/x"
        = some { status := 200, body := "ok", offline := false,
                 xCached := false }
      ∨ ({ status := 200, body := "ok", offline := false,
           xCached := false } : SWResponse).status = 200) :=
  have h := c9_only_ok_cached (fun _ => NetResult.resp
    { status := 200, body := "ok", offline := false, xCached := false })
    [] "/x" "/x" { status := 200, body := "ok", offline := false,
                   xCached := false }
  ⟨h.1 (by decide), h.2.2.2 (by decide)⟩
